import Mathlib

set_option linter.all false

/-!
A shallow embedding of the Pomodoro Memo application (src/src/pomodoro.py).

Conventions of the embedding:
* instants (`datetime.now()`) are modelled as integer seconds (`Int`);
  `fmt` renders an instant as its decimal form and `date_str` maps an
  instant to its calendar-day string;
* Tk string variables (the settings entry fields, the task-name entry)
  are carried verbatim as `String` fields of the state;
* Python `int(...)` is modelled by `pyInt?` (strip whitespace, optional
  sign, decimal digits; failure is `none`, mirroring `ValueError`);
* the modal memo dialog is an external collaborator: its result is an
  explicit `Option String` argument of the completion path;
* a day-log file is `Option String` (`none` = the file does not exist);
  a write that raises an IO error is modelled by the `dayOk : Bool`
  argument of `complete_session`: when it is `false` the append raises,
  which surfaces as `Except.error` carrying the state at the raise point,
  exactly as the Python exception propagates with the mutations done so
  far (none) retained;
* the background timer thread is modelled twice: as a sequential `tickE`
  event in the single-writer event semantics `step`, and explicitly as a
  two-phase driver (`driver_step`) whose loop-head check and post-sleep
  decrement are separate steps, so that interleavings with `pause` can
  be examined.
-/

namespace Pomodoro

/-- Python whitespace class for `str.strip` / regex `\s` (ASCII part). -/
def pyIsSpace (c : Char) : Bool :=
  c = ' ' || c = '\t' || c = '\n' || c = '\r' || c = '\x0b' || c = '\x0c'

/-- Python `str.strip()` on a character list. -/
def pyStrip (l : List Char) : List Char :=
  ((l.dropWhile pyIsSpace).reverse.dropWhile pyIsSpace).reverse

/-- Python `str.strip()` on a string. -/
def pyStripS (s : String) : String := String.mk (pyStrip s.data)

/-- Numeric value of a list of decimal digits. -/
def digitsVal (ds : List Char) : Nat :=
  ds.foldl (fun a c => a * 10 + (c.toNat - 48)) 0

/-- Python `int(s)`: strip whitespace, optional sign, decimal digits;
`none` models the `ValueError` raised on malformed input. -/
def pyInt? (s : String) : Option Int :=
  match pyStrip s.data with
  | [] => none
  | c :: cs =>
    if c = '-' then
      if !cs.isEmpty && cs.all Char.isDigit then some (-(digitsVal cs : Int)) else none
    else if c = '+' then
      if !cs.isEmpty && cs.all Char.isDigit then some ((digitsVal cs : Int)) else none
    else if (c :: cs).all Char.isDigit then some ((digitsVal (c :: cs) : Int)) else none

/-- Does `needle` occur contiguously in `hay`?  Models Python `needle in hay`. -/
def subOccurs (needle : List Char) : List Char → Bool
  | [] => needle.isEmpty
  | c :: cs => needle.isPrefixOf (c :: cs) || subOccurs needle cs

/-- Predicate `hasSub hay k` — the keyword string `k` occurs in the character list `hay`. -/
def hasSub (hay : List Char) (k : String) : Bool := subOccurs k.data hay

/-- Models `text.lower()` as a character list. -/
def lowerData (s : String) : List Char := s.data.map Char.toLower

/-- Keyword set discouraging passive/scrolling break activity (line 27). -/
def KEYWORDS_DONT : List String :=
  ["scroll", "instagram", "tiktok", "reel", "youtube", "doom", "binge",
   "gaming", "whatsapp", "twitter", "x.com", "reddit"]

/-- Keyword set encouraging movement/hydration break activity (line 28). -/
def KEYWORDS_DO : List String :=
  ["walk", "water", "stretch", "breath", "breathing", "hydrate", "standing",
   "sunlight", "tea", "coffee", "pushups", "plank", "yoga"]

/-- Models `any(k in text_l for k in KEYWORDS_DONT)`. -/
def matches_dont (text : String) : Bool := KEYWORDS_DONT.any (hasSub (lowerData text))

/-- Models `any(k in text_l for k in KEYWORDS_DO)`. -/
def matches_do (text : String) : Bool := KEYWORDS_DO.any (hasSub (lowerData text))

/-- Models `analyze_break_activity` (lines 44-55): classify a break memo into
(do-lines, dont-lines). -/
def analyze_break_activity (text : String) : List String × List String :=
  let donts :=
    if matches_dont text then
      ["Avoid algorithmic feeds and passive scrolling next break.",
       "Keep phone in another room or enable Focus mode."]
    else []
  let dos :=
    if matches_do text then
      ["Repeat quick movement or hydration — it helped reset focus."]
    else []
  if dos.isEmpty && donts.isEmpty then
    (["Keep break short (3–5 min) and physically reset (stand/stretch).",
      "Sip water; avoid snacks if they cause lethargy."], donts)
  else
    (dos, donts)

/-- The characters replaced by `-` in `sanitize_filename`
(regex class `[\\/:*?"<>|]`). -/
def isHostileChar (c : Char) : Bool :=
  c = '\\' || c = '/' || c = ':' || c = '*' || c = '?' || c = '"' ||
  c = '<' || c = '>' || c = '|'

/-- Replace every maximal run of characters satisfying `p` by the single
character `r`; the Boolean tracks whether we are inside such a run.
Models `re.sub(p+, r, s)`. -/
def collapseRuns (p : Char → Bool) (r : Char) : Bool → List Char → List Char
  | _, [] => []
  | inRun, c :: cs =>
    if p c then
      if inRun then collapseRuns p r true cs
      else r :: collapseRuns p r true cs
    else c :: collapseRuns p r false cs

/-- Models `sanitize_filename` (lines 30-34): strip, collapse path-hostile runs to
`-`, collapse whitespace runs to a space, strip again, truncate to 80. -/
def sanitize_filename (name : String) : String :=
  let n1 := pyStrip name.data
  let n2 := collapseRuns isHostileChar '-' false n1
  let n3 := pyStrip (collapseRuns pyIsSpace ' ' false n2)
  String.mk (if n3.length > 80 then n3.take 80 else n3)

/-- The file name targeted by `SessionLogger.append_task` (line 76). -/
def task_file_name (task_name : String) : String := sanitize_filename task_name ++ ".md"

/-- Timer mode: `"work" | "short" | "long"`. -/
inductive Mode where
  | work
  | short
  | long
deriving DecidableEq, Repr

/-- Default durations and cycle count (lines 14-19). -/
def DEFAULTS_work : Int := 25

/-- Default short-break minutes. -/
def DEFAULTS_short : Int := 5

/-- Default long-break minutes. -/
def DEFAULTS_long : Int := 15

/-- Default cycles before a long break. -/
def DEFAULTS_cycles_before_long : Int := 4

/-- The mutable state of `PomodoroApp` (constructor, lines 148-231).
`loaded_minutes` is a ghost field recording the minutes value most recently
loaded into `remaining` by `on_mode_change`; the code itself keeps no such
field, it is carried only to state invariants about `remaining`. -/
structure AppState where
  mode : Mode
  mode_var : Mode
  running : Bool
  stop_flag : Bool
  remaining : Int
  completed_work_sessions : Nat
  session_start_ts : Option Int
  last_mode_start : Option Int
  task_var : String
  work_var : String
  short_var : String
  long_var : String
  cbl_var : String
  auto_var : Bool
  loaded_minutes : Int
deriving DecidableEq, Repr

/-- Models `parse_int` inside `_current_default_minutes` (lines 246-251): accept a
parsed value in `[1,300]`, otherwise fall back to the given default. -/
def parse_int (s : String) (d : Int) : Int :=
  match pyInt? s with
  | some v => if 1 ≤ v ∧ v ≤ 300 then v else d
  | none => d

/-- Models `_current_default_minutes` (lines 245-257). -/
def current_default_minutes (st : AppState) : Int :=
  match st.mode with
  | .work => parse_int st.work_var DEFAULTS_work
  | .short => parse_int st.short_var DEFAULTS_short
  | .long => parse_int st.long_var DEFAULTS_long

/-- Models `on_mode_change` (lines 237-243): adopt the selector's mode, reload
`remaining` from Settings, restart the mode clock. -/
def on_mode_change (t : Int) (st : AppState) : AppState :=
  let st1 := {st with mode := st.mode_var}
  let m := current_default_minutes st1
  {st1 with remaining := m * 60, last_mode_start := some t, loaded_minutes := m}

/-- Models `pause` (lines 277-282): no-op when already paused. -/
def pause_ (st : AppState) : AppState :=
  if st.running then {st with running := false, stop_flag := true} else st

/-- Models `start` (lines 263-275): no-op when already running; sets the overall
session start on first call and restarts the mode clock. -/
def start_ (t : Int) (st : AppState) : AppState :=
  if st.running then st
  else
    {st with running := true, stop_flag := false,
             session_start_ts := some (st.session_start_ts.getD t),
             last_mode_start := some t}

/-- The session record assembled by `_complete_session` (lines 322-344). -/
structure SessionRecord where
  mode : Mode
  startTs : Int
  endTs : Int
  durationSeconds : Int
  task : String
  memo : Option String
deriving DecidableEq, Repr

/-- Models `fmt` (lines 39-40), with instants as integer seconds rendered in
decimal. -/
def fmt (t : Int) : String := toString t

/-- The calendar-day string of an instant (models `strftime("%Y-%m-%d")`). -/
def date_str (t : Int) : String := toString (t / 86400)

/-- Models `md_kv` (line 42). -/
def md_kv (k v : String) : String := "- **" ++ k ++ "**: " ++ v ++ "\n"

/-- The markdown label of a mode (line 339). -/
def mode_label : Mode → String
  | .work => "Work"
  | .short => "Short Break"
  | .long => "Long Break"

/-- Bulleted joining of advisory lines (lines 354, 356). -/
def joinLines (xs : List String) : String :=
  String.intercalate "\n" (xs.map (fun d => "- " ++ d))

/-- The markdown block built by `_complete_session` (lines 336-358). -/
def build_block (mode : Mode) (startTs endTs duration : Int) (task : String)
    (memo : Option String) : String :=
  let mins := duration / 60
  let secs := duration % 60
  let header := "## " ++ mode_label mode ++ " • " ++ fmt startTs ++ " → " ++
    fmt endTs ++ " (" ++ toString mins ++ "m " ++ toString secs ++ "s)\n\n"
  let meta := md_kv "Task" (if task = "" then "(unnamed)" else task) ++
    md_kv "Start" (fmt startTs) ++ md_kv "End" (fmt endTs) ++
    md_kv "Duration" (toString mins ++ "m " ++ toString secs ++ "s") ++ "\n"
  let body :=
    match memo with
    | none => ""
    | some m =>
      if m = "" then ""
      else
        let memoPart := "#### Memo\n\n" ++ pyStripS m ++ "\n\n"
        let adv :=
          if mode ≠ Mode.work then
            let da := analyze_break_activity m
            (if !da.1.isEmpty then "#### Do\n\n" ++ joinLines da.1 ++ "\n\n" else "") ++
            (if !da.2.isEmpty then "#### Don\x27t\n\n" ++ joinLines da.2 ++ "\n\n" else "")
          else ""
        memoPart ++ adv
  header ++ meta ++ body ++ "---\n\n"

/-- The level-1 title line written on first append (line 70). -/
def day_title (d : String) : String := "# Pomodoro Log — " ++ d ++ "\n\n"

/-- Models `SessionLogger.append_markdown` (lines 64-71) as a function on the
day-log file content (`none` = file does not exist): write the title iff
the file is missing or empty, then append the block. -/
def append_markdown (d : String) (file : Option String) (text : String) : String :=
  match file with
  | none => day_title d ++ text
  | some content => if content = "" then day_title d ++ text else content ++ text

/-- Models `_complete_session` (lines 322-367).  `memo_input` is the memo dialog's
result (consulted only when not skipped); `dayOk = false` makes the day-log
append raise, which propagates as `Except.error` carrying the state at the
raise point.  On success returns the new state, the new day-log content and
the session record. -/
def complete_session (t : Int) (memo_input : Option String) (dayOk : Bool)
    (skipped : Bool) (st : AppState) (day : Option String) :
    Except (AppState × Option String) (AppState × Option String × SessionRecord) :=
  let startTs := st.last_mode_start.getD t
  let duration := t - startTs
  let task := pyStripS st.task_var
  let memo := if skipped then none else memo_input
  let block := build_block st.mode startTs t duration task memo
  let r : SessionRecord := ⟨st.mode, startTs, t, duration, task, memo⟩
  if dayOk then
    let day' := some (append_markdown (date_str t) day block)
    let st' :=
      if st.mode = Mode.work then
        {st with completed_work_sessions := st.completed_work_sessions + 1}
      else st
    .ok (st', day', r)
  else
    .error (st, day)

/-- The `cycles_before_long` value read in `_goto_next_session`
(lines 376-379): `max(1, int(cbl_var))`, defaulting to 4 when `int` raises. -/
def cbl_value (s : String) : Nat :=
  match pyInt? s with
  | some v => (max 1 v).toNat
  | none => DEFAULTS_cycles_before_long.toNat

/-- Models `_goto_next_session` (lines 374-386): from Work choose long iff the
(already incremented) counter is divisible by `max 1 int(cbl)` (default 4 on
parse failure); from a break go back to Work; then `on_mode_change`. -/
def goto_next_session (t : Int) (st : AppState) : AppState :=
  let next :=
    if st.mode = Mode.work then
      if st.completed_work_sessions % cbl_value st.cbl_var = 0 then Mode.long else Mode.short
    else Mode.work
  on_mode_change t {st with mode_var := next}

/-- Models `skip` (lines 284-289): pause, complete as skipped, advance, auto-start.
A raised storage error propagates unchanged, aborting the advance. -/
def skip_op (t : Int) (dayOk : Bool) (st : AppState) (day : Option String) :
    Except (AppState × Option String) (AppState × Option String × SessionRecord) :=
  let st1 := pause_ st
  match complete_session t none dayOk true st1 day with
  | .error e => .error e
  | .ok (st2, day2, r) =>
    let st3 := goto_next_session t st2
    let st4 := if st3.auto_var then start_ t st3 else st3
    .ok (st4, day2, r)

/-- Models `_on_times_up` (lines 305-312): pause, complete naturally (prompting
the memo dialog, whose answer is `memo`), advance, auto-start.
A raised storage error propagates unchanged, aborting the advance. -/
def on_times_up (t : Int) (memo : Option String) (dayOk : Bool) (st : AppState)
    (day : Option String) :
    Except (AppState × Option String) (AppState × Option String × SessionRecord) :=
  let st1 := pause_ st
  match complete_session t memo dayOk false st1 day with
  | .error e => .error e
  | .ok (st2, day2, r) =>
    let st3 := goto_next_session t st2
    let st4 := if st3.auto_var then start_ t st3 else st3
    .ok (st4, day2, r)

/-- Models `reset` (lines 291-295). -/
def reset_op (t : Int) (st : AppState) : AppState :=
  let st1 := pause_ st
  on_mode_change t {st1 with completed_work_sessions := 0, session_start_ts := none}

/-- Selecting a mode radio button: the Tk variable is written, then
`on_mode_change` runs (line 191). -/
def select_mode (m : Mode) (t : Int) (st : AppState) : AppState :=
  on_mode_change t {st with mode_var := m}

/-- The `_run_timer` loop-head condition (line 298):
`self.running and not self.stop_flag and self.remaining > 0`. -/
def timer_guard (st : AppState) : Bool :=
  st.running && !st.stop_flag && decide (0 < st.remaining)

/-- User-interface events of the sequential (single-writer) semantics;
instants are carried by the events that read the clock. -/
inductive Event where
  | startE (t : Int)
  | pauseE
  | tickE
  | timesUp (t : Int) (memo : Option String)
  | skipE (t : Int)
  | selectMode (m : Mode) (t : Int)
  | resetE (t : Int)
  | setWork (s : String)
  | setShort (s : String)
  | setLong (s : String)
  | setCbl (s : String)
  | setTask (s : String)
  | setAuto (b : Bool)
deriving DecidableEq, Repr

/-- The whole observable world: app state, day-log file content, and the
list of session records produced so far (in order). -/
structure World where
  st : AppState
  day : Option String
  recs : List SessionRecord
deriving DecidableEq, Repr

/-- One event of the sequential semantics.  `tickE` is the marshalled
once-per-second decrement (guarded exactly by the loop condition);
`timesUp` fires only in the situation `_run_timer` schedules it
(line 302: running, not stopped, `remaining ≤ 0`); log writes succeed. -/
def step (e : Event) (w : World) : World :=
  match e with
  | .startE t => ⟨start_ t w.st, w.day, w.recs⟩
  | .pauseE => ⟨pause_ w.st, w.day, w.recs⟩
  | .tickE =>
    if timer_guard w.st then
      ⟨{w.st with remaining := w.st.remaining - 1}, w.day, w.recs⟩
    else w
  | .timesUp t memo =>
    if w.st.running && !w.st.stop_flag && decide (w.st.remaining ≤ 0) then
      match on_times_up t memo true w.st w.day with
      | .ok (st', d', r) => ⟨st', d', w.recs ++ [r]⟩
      | .error _ => w
    else w
  | .skipE t =>
    match skip_op t true w.st w.day with
    | .ok (st', d', r) => ⟨st', d', w.recs ++ [r]⟩
    | .error _ => w
  | .selectMode m t => ⟨select_mode m t w.st, w.day, w.recs⟩
  | .resetE t => ⟨reset_op t w.st, w.day, w.recs⟩
  | .setWork s => ⟨{w.st with work_var := s}, w.day, w.recs⟩
  | .setShort s => ⟨{w.st with short_var := s}, w.day, w.recs⟩
  | .setLong s => ⟨{w.st with long_var := s}, w.day, w.recs⟩
  | .setCbl s => ⟨{w.st with cbl_var := s}, w.day, w.recs⟩
  | .setTask s => ⟨{w.st with task_var := s}, w.day, w.recs⟩
  | .setAuto b => ⟨{w.st with auto_var := b}, w.day, w.recs⟩

/-- The state built by the `PomodoroApp` constructor before its final
`on_mode_change()` call (lines 157-218). -/
def init_state : AppState :=
  { mode := Mode.work, mode_var := Mode.work, running := false, stop_flag := false,
    remaining := DEFAULTS_work * 60, completed_work_sessions := 0,
    session_start_ts := none, last_mode_start := none, task_var := "",
    work_var := "25", short_var := "5", long_var := "15", cbl_var := "4",
    auto_var := false, loaded_minutes := DEFAULTS_work }

/-- The world right after the constructor finishes (its last act is
`on_mode_change()`, line 230), with no log file yet. -/
def init_world (t : Int) : World := ⟨on_mode_change t init_state, none, []⟩

/-- Run a list of events from the freshly constructed application. -/
def run (evs : List Event) : World := evs.foldl (fun w e => step e w) (init_world 0)

/-- Position of the background driver thread inside one `_run_timer` loop
iteration (lines 297-301): at the loop-head check, or inside
`time.sleep(1)` with the decrement still to come. -/
inductive DriverPhase where
  | atLoopHead
  | sleeping
deriving DecidableEq, Repr

/-- App state as seen by the interleaved driver model. -/
structure DriverState where
  st : AppState
  phase : DriverPhase
deriving DecidableEq, Repr

/-- One step of the background driver: at the loop head it evaluates the
guard and either enters the sleep or exits the loop; after the sleep it
decrements `remaining` unconditionally — the source re-checks no flag
between `time.sleep(1)` and `self.remaining -= 1` (lines 298-300). -/
def driver_step (s : DriverState) : DriverState :=
  match s.phase with
  | .atLoopHead => if timer_guard s.st then ⟨s.st, .sleeping⟩ else s
  | .sleeping => ⟨{s.st with remaining := s.st.remaining - 1}, .atLoopHead⟩

/-- A `pause()` performed by the UI thread, at any driver phase. -/
def ui_pause (s : DriverState) : DriverState := ⟨pause_ s.st, s.phase⟩

/-- Iterate the driver `n` steps. -/
def driver_iter : Nat → DriverState → DriverState
  | 0, s => s
  | n + 1, s => driver_iter n (driver_step s)

/-- Split a character list at newline characters (the final fragment has no
terminating newline). -/
def splitLinesChars : List Char → List (List Char)
  | [] => [[]]
  | c :: cs =>
    if c = '\n' then [] :: splitLinesChars cs
    else
      match splitLinesChars cs with
      | [] => [[c]]
      | l :: ls => (c :: l) :: ls

/-- Number of level-1 markdown title lines (lines beginning `# ` but not
`## `) in a string. -/
def countH1 (s : String) : Nat :=
  ((splitLinesChars s.data).filter (fun l => ['#', ' '].isPrefixOf l)).length

/-- The invariant carried by the sequential semantics: `remaining` is
non-negative, bounded by the minutes value most recently loaded from
Settings, and that value is at least 1. -/
def StInv (st : AppState) : Prop :=
  0 ≤ st.remaining ∧ st.remaining ≤ st.loaded_minutes * 60 ∧ 1 ≤ st.loaded_minutes

/-! Projection lemmas: `pause` and `start` touch only the running/stop
flags and the timestamps. -/

@[simp] theorem pause_mode (st : AppState) : (pause_ st).mode = st.mode := by
  unfold pause_; split <;> rfl

@[simp] theorem pause_mode_var (st : AppState) : (pause_ st).mode_var = st.mode_var := by
  unfold pause_; split <;> rfl

@[simp] theorem pause_remaining (st : AppState) : (pause_ st).remaining = st.remaining := by
  unfold pause_; split <;> rfl

@[simp] theorem pause_completed (st : AppState) :
    (pause_ st).completed_work_sessions = st.completed_work_sessions := by
  unfold pause_; split <;> rfl

@[simp] theorem pause_last_mode_start (st : AppState) :
    (pause_ st).last_mode_start = st.last_mode_start := by
  unfold pause_; split <;> rfl

@[simp] theorem pause_task_var (st : AppState) : (pause_ st).task_var = st.task_var := by
  unfold pause_; split <;> rfl

@[simp] theorem pause_work_var (st : AppState) : (pause_ st).work_var = st.work_var := by
  unfold pause_; split <;> rfl

@[simp] theorem pause_short_var (st : AppState) : (pause_ st).short_var = st.short_var := by
  unfold pause_; split <;> rfl

@[simp] theorem pause_long_var (st : AppState) : (pause_ st).long_var = st.long_var := by
  unfold pause_; split <;> rfl

@[simp] theorem pause_cbl_var (st : AppState) : (pause_ st).cbl_var = st.cbl_var := by
  unfold pause_; split <;> rfl

@[simp] theorem pause_auto_var (st : AppState) : (pause_ st).auto_var = st.auto_var := by
  unfold pause_; split <;> rfl

@[simp] theorem pause_loaded_minutes (st : AppState) :
    (pause_ st).loaded_minutes = st.loaded_minutes := by
  unfold pause_; split <;> rfl

@[simp] theorem pause_running (st : AppState) : (pause_ st).running = false := by
  unfold pause_; split <;> simp_all

@[simp] theorem start_mode (t : Int) (st : AppState) : (start_ t st).mode = st.mode := by
  unfold start_; split <;> rfl

@[simp] theorem start_mode_var (t : Int) (st : AppState) :
    (start_ t st).mode_var = st.mode_var := by
  unfold start_; split <;> rfl

@[simp] theorem start_remaining (t : Int) (st : AppState) :
    (start_ t st).remaining = st.remaining := by
  unfold start_; split <;> rfl

@[simp] theorem start_completed (t : Int) (st : AppState) :
    (start_ t st).completed_work_sessions = st.completed_work_sessions := by
  unfold start_; split <;> rfl

@[simp] theorem start_loaded_minutes (t : Int) (st : AppState) :
    (start_ t st).loaded_minutes = st.loaded_minutes := by
  unfold start_; split <;> rfl

@[simp] theorem start_auto_var (t : Int) (st : AppState) :
    (start_ t st).auto_var = st.auto_var := by
  unfold start_; split <;> rfl

/-! Facts about the settings parser. -/

theorem one_le_parse_int (s : String) (d : Int) (hd : 1 ≤ d) : 1 ≤ parse_int s d := by
  unfold parse_int
  cases pyInt? s with
  | none => exact hd
  | some v =>
    dsimp only
    split
    · next h => exact h.1
    · exact hd

theorem parse_int_le_300 (s : String) (d : Int) (hd : d ≤ 300) : parse_int s d ≤ 300 := by
  unfold parse_int
  cases pyInt? s with
  | none => exact hd
  | some v =>
    dsimp only
    split
    · next h => exact h.2
    · exact hd

theorem one_le_current_default_minutes (st : AppState) :
    1 ≤ current_default_minutes st := by
  unfold current_default_minutes
  cases st.mode <;> exact one_le_parse_int _ _ (by norm_num [DEFAULTS_work, DEFAULTS_short, DEFAULTS_long])

theorem current_default_minutes_le_300 (st : AppState) :
    current_default_minutes st ≤ 300 := by
  unfold current_default_minutes
  cases st.mode <;> exact parse_int_le_300 _ _ (by norm_num [DEFAULTS_work, DEFAULTS_short, DEFAULTS_long])

/-! Projection lemmas for `on_mode_change` and `_goto_next_session`. -/

@[simp] theorem on_mode_change_mode (t : Int) (st : AppState) :
    (on_mode_change t st).mode = st.mode_var := rfl

@[simp] theorem on_mode_change_running (t : Int) (st : AppState) :
    (on_mode_change t st).running = st.running := rfl

@[simp] theorem on_mode_change_completed (t : Int) (st : AppState) :
    (on_mode_change t st).completed_work_sessions = st.completed_work_sessions := rfl

@[simp] theorem on_mode_change_last_mode_start (t : Int) (st : AppState) :
    (on_mode_change t st).last_mode_start = some t := rfl

@[simp] theorem on_mode_change_auto_var (t : Int) (st : AppState) :
    (on_mode_change t st).auto_var = st.auto_var := rfl

@[simp] theorem on_mode_change_loaded_minutes (t : Int) (st : AppState) :
    (on_mode_change t st).loaded_minutes =
      current_default_minutes {st with mode := st.mode_var} := rfl

@[simp] theorem on_mode_change_remaining (t : Int) (st : AppState) :
    (on_mode_change t st).remaining =
      current_default_minutes {st with mode := st.mode_var} * 60 := rfl

@[simp] theorem goto_mode (t : Int) (st : AppState) :
    (goto_next_session t st).mode =
      (if st.mode = Mode.work then
        (if st.completed_work_sessions % cbl_value st.cbl_var = 0 then Mode.long
         else Mode.short)
      else Mode.work) := rfl

@[simp] theorem goto_completed (t : Int) (st : AppState) :
    (goto_next_session t st).completed_work_sessions = st.completed_work_sessions := rfl

@[simp] theorem goto_running (t : Int) (st : AppState) :
    (goto_next_session t st).running = st.running := rfl

@[simp] theorem goto_auto_var (t : Int) (st : AppState) :
    (goto_next_session t st).auto_var = st.auto_var := rfl

/-- Claim C8: the break-memo classifier emits a non-empty Do list on
encourage-keyword matches, a non-empty Don\x27t list on discourage-keyword
matches, the two fixed neutral Do lines (and no Don\x27t lines) when neither
set matches (including the empty string), both outputs when both sets
match; the three concrete example memos classify as the spec states. -/
theorem break_classifier_spec :
    (∀ t, matches_dont t = true → (analyze_break_activity t).2 ≠ []) ∧
    (∀ t, matches_do t = true → (analyze_break_activity t).1 ≠ []) ∧
    (∀ t, matches_dont t = false → matches_do t = false →
      analyze_break_activity t =
        (["Keep break short (3–5 min) and physically reset (stand/stretch).",
          "Sip water; avoid snacks if they cause lethargy."], [])) ∧
    (∀ t, matches_dont t = true → matches_do t = true →
      analyze_break_activity t =
        (["Repeat quick movement or hydration — it helped reset focus."],
         ["Avoid algorithmic feeds and passive scrolling next break.",
          "Keep phone in another room or enable Focus mode."])) ∧
    (analyze_break_activity "went for a walk and drank water" =
      (["Repeat quick movement or hydration — it helped reset focus."], [])) ∧
    ((analyze_break_activity "scrolled instagram for 10 minutes").2 ≠ []) ∧
    ((analyze_break_activity "scrolled instagram for 10 minutes").1 = []) ∧
    (analyze_break_activity "" =
      (["Keep break short (3–5 min) and physically reset (stand/stretch).",
        "Sip water; avoid snacks if they cause lethargy."], [])) := by
  refine ⟨?_, ?_, ?_, ?_, ?_, ?_, ?_, ?_⟩
  · intro t h; simp [analyze_break_activity, h]
  · intro t h; simp [analyze_break_activity, h]
  · intro t h1 h2; simp [analyze_break_activity, h1, h2]
  · intro t h1 h2; simp [analyze_break_activity, h1, h2]
  · decide
  · decide
  · decide
  · decide

/-- Witness for C8: a memo matching both keyword sets yields both a
non-empty Do list and a non-empty Don\x27t list. -/
theorem break_classifier_spec_witness :
    (analyze_break_activity "doom walk").2 ≠ [] ∧
    (analyze_break_activity "doom walk").1 ≠ [] :=
  ⟨break_classifier_spec.1 "doom walk" (by decide),
   break_classifier_spec.2.1 "doom walk" (by decide)⟩

/-- Claim C10: `sanitize_filename` is not injective — distinct non-empty
task names collide after hostile-run collapsing and after 80-character
truncation, so their records target the same task-log file. -/
theorem sanitize_collision :
    ("a/b" : String) ≠ "a//b" ∧
    sanitize_filename "a/b" = "a-b" ∧
    sanitize_filename "a//b" = "a-b" ∧
    task_file_name "a/b" = task_file_name "a//b" ∧
    String.mk (List.replicate 81 'a') ≠ String.mk (List.replicate 82 'a') ∧
    sanitize_filename (String.mk (List.replicate 81 'a')) =
      sanitize_filename (String.mk (List.replicate 82 'a')) ∧
    sanitize_filename (String.mk (List.replicate 81 'a')) =
      String.mk (List.replicate 80 'a') ∧
    task_file_name (String.mk (List.replicate 81 'a')) =
      task_file_name (String.mk (List.replicate 82 'a')) := by
  decide

/-- Counterexample to claim C2: after the work field held the valid value
100 (which was loaded into the timer), editing it to the non-numeric
"abc" makes the next reload use the hard-coded default 25, not the
last-known-good 100. -/
theorem settings_fallback_counterexample :
    (run [Event.setWork "100", Event.selectMode Mode.work 5]).st.remaining = 100 * 60 ∧
    (run [Event.setWork "100", Event.selectMode Mode.work 5, Event.setWork "abc",
          Event.selectMode Mode.work 9]).st.remaining = DEFAULTS_work * 60 ∧
    DEFAULTS_work * 60 ≠ (100 : Int) * 60 ∧
    pyInt? "abc" = none := by
  decide

/-- Claim C2 as amended: an invalid settings read (non-numeric or outside
[1,300]) silently falls back to the hard-coded module default for that
field — 25/5/15 minutes, 4 cycles — not to the last-known-good value;
the minutes value actually used always lies in [1,300], and a numeric
cycles value is clamped below at 1 rather than defaulted. -/
theorem settings_fallback_static_default :
    (∀ s d, pyInt? s = none → parse_int s d = d) ∧
    (∀ s d v, pyInt? s = some v → ¬(1 ≤ v ∧ v ≤ 300) → parse_int s d = d) ∧
    (∀ st, 1 ≤ current_default_minutes st ∧ current_default_minutes st ≤ 300) ∧
    (∀ s, pyInt? s = none → cbl_value s = DEFAULTS_cycles_before_long.toNat) ∧
    (∀ s v, pyInt? s = some v → cbl_value s = (max 1 v).toNat) := by
  refine ⟨?_, ?_, ?_, ?_, ?_⟩
  · intro s d h; unfold parse_int; rw [h]
  · intro s d v h hv; unfold parse_int; rw [h]; exact if_neg hv
  · intro st; exact ⟨one_le_current_default_minutes st, current_default_minutes_le_300 st⟩
  · intro s h; unfold cbl_value; rw [h]
  · intro s v h; unfold cbl_value; rw [h]

/-- Witness for the amended C2: the non-numeric work field "abc" reads as
the default 25, and a non-numeric cycles field reads as the default 4. -/
theorem settings_fallback_static_default_witness :
    parse_int "abc" DEFAULTS_work = DEFAULTS_work ∧
    cbl_value "xyz" = DEFAULTS_cycles_before_long.toNat :=
  ⟨settings_fallback_static_default.1 "abc" DEFAULTS_work (by decide),
   settings_fallback_static_default.2.2.2.1 "xyz" (by decide)⟩

/-- Counterexample to claim C4: with the driver at the loop head of
`_run_timer` in a running state, the driver passes the guard and enters
`time.sleep(1)`; `pause()` then lands while that tick is in flight, yet
the driver still decrements `remaining` after waking — the in-flight tick
is applied, not discarded, because no flag is re-checked between the
sleep and the mutation. -/
theorem inflight_tick_counterexample :
    (ui_pause (driver_step ⟨start_ 1 (init_world 0).st, DriverPhase.atLoopHead⟩)).st.running
      = false ∧
    (ui_pause (driver_step ⟨start_ 1 (init_world 0).st, DriverPhase.atLoopHead⟩)).phase
      = DriverPhase.sleeping ∧
    (driver_step (ui_pause (driver_step ⟨start_ 1 (init_world 0).st,
        DriverPhase.atLoopHead⟩))).st.remaining
      = (start_ 1 (init_world 0).st).remaining - 1 ∧
    (start_ 1 (init_world 0).st).remaining = 1500 := by
  decide

/-- Claim C4 as amended: the driver checks the liveness flags only at the
top of each loop iteration, before sleeping; a tick already in flight when
`pause()` is called is still applied (one further decrement of
`remaining`), and only afterwards, back at the loop head with the stop
flag set, does the driver stop — no second decrement ever occurs. -/
theorem inflight_tick_applied_once (s : DriverState)
    (h : s.phase = DriverPhase.sleeping) :
    (driver_step s).st.remaining = s.st.remaining - 1 ∧
    (s.st.stop_flag = true →
      ∀ n, driver_iter n (driver_step s) = driver_step s) := by
  obtain ⟨st, ph⟩ := s
  subst h
  constructor
  · rfl
  · intro hs n
    have hs' : st.stop_flag = true := hs
    have hfix : driver_step (driver_step (⟨st, DriverPhase.sleeping⟩ : DriverState)) =
        driver_step (⟨st, DriverPhase.sleeping⟩ : DriverState) := by
      simp [driver_step, timer_guard, hs']
    induction n with
    | zero => rfl
    | succ n ih =>
      calc driver_iter (n + 1) (driver_step ⟨st, DriverPhase.sleeping⟩)
          = driver_iter n (driver_step (driver_step ⟨st, DriverPhase.sleeping⟩)) := rfl
        _ = driver_iter n (driver_step ⟨st, DriverPhase.sleeping⟩) := by rw [hfix]
        _ = driver_step ⟨st, DriverPhase.sleeping⟩ := ih

/-- Witness for the amended C4: a paused (stop flag set) application with
the driver mid-sleep still receives exactly one decrement, after which the
driver is quiescent. -/
theorem inflight_tick_applied_once_witness :
    (driver_step ⟨pause_ (start_ 1 (init_world 0).st), DriverPhase.sleeping⟩).st.remaining
      = (pause_ (start_ 1 (init_world 0).st)).remaining - 1 ∧
    driver_iter 5 (driver_step ⟨pause_ (start_ 1 (init_world 0).st), DriverPhase.sleeping⟩)
      = driver_step ⟨pause_ (start_ 1 (init_world 0).st), DriverPhase.sleeping⟩ :=
  ⟨(inflight_tick_applied_once _ rfl).1,
   (inflight_tick_applied_once _ rfl).2 (by decide) 5⟩

/-- Counterexample to claim C3: when the day-log append raises on a
natural Work completion, the exception propagates out of the completion
path — the mode is still Work afterwards (mode advancement did NOT take
place) and the counter was not incremented, contradicting the claim that
advancement still occurs. -/
theorem log_failure_counterexample :
    on_times_up 9 (some "m") false (start_ 1 (init_world 0).st) none =
      Except.error (pause_ (start_ 1 (init_world 0).st), none) ∧
    (pause_ (start_ 1 (init_world 0).st)).mode = Mode.work ∧
    (pause_ (start_ 1 (init_world 0).st)).completed_work_sessions = 0 := by
  refine ⟨rfl, ?_, ?_⟩ <;> decide

/-- Claim C3 as amended: a log-append failure raises out of the completion
path (both on natural completion and on skip): the in-memory state is
exactly the paused state — mode, counter and remaining seconds are
uncorrupted — but the counter is not incremented and mode advancement
does not take place; the exception escapes to the event loop instead of
being reported by the application. -/
theorem log_failure_propagates (t : Int) (memo : Option String) (st : AppState)
    (day : Option String) :
    on_times_up t memo false st day = Except.error (pause_ st, day) ∧
    skip_op t false st day = Except.error (pause_ st, day) ∧
    (pause_ st).mode = st.mode ∧
    (pause_ st).completed_work_sessions = st.completed_work_sessions ∧
    (pause_ st).remaining = st.remaining :=
  ⟨rfl, rfl, pause_mode st, pause_completed st, pause_remaining st⟩

/-- Claim C1: on every non-failing completion of a Work interval — natural
completion or skip — the counter is incremented and the next mode is
LongBreak iff the incremented counter is divisible by cyclesBeforeLong
(here parsed to N ≥ 1), else ShortBreak; completing a break advances to
Work unconditionally with the counter unchanged. -/
theorem work_completion_advance (t : Int) (memo : Option String) (st : AppState)
    (day : Option String) (N : Int) (hc : pyInt? st.cbl_var = some N) (hN : 1 ≤ N) :
    (st.mode = Mode.work →
      (skip_op t true st day).toOption.map
        (fun x => (x.1.completed_work_sessions, x.1.mode)) =
        some (st.completed_work_sessions + 1,
          if (st.completed_work_sessions + 1) % N.toNat = 0 then Mode.long
          else Mode.short) ∧
      (on_times_up t memo true st day).toOption.map
        (fun x => (x.1.completed_work_sessions, x.1.mode)) =
        some (st.completed_work_sessions + 1,
          if (st.completed_work_sessions + 1) % N.toNat = 0 then Mode.long
          else Mode.short)) ∧
    (st.mode ≠ Mode.work →
      (skip_op t true st day).toOption.map
        (fun x => (x.1.completed_work_sessions, x.1.mode)) =
        some (st.completed_work_sessions, Mode.work) ∧
      (on_times_up t memo true st day).toOption.map
        (fun x => (x.1.completed_work_sessions, x.1.mode)) =
        some (st.completed_work_sessions, Mode.work)) := by
  have hcbl : cbl_value st.cbl_var = N.toNat := by
    unfold cbl_value
    rw [hc]
    dsimp only
    rw [max_eq_right hN]
  constructor
  · intro h
    constructor <;>
      simp [skip_op, on_times_up, complete_session, Except.toOption, h, hcbl] <;>
      split <;> simp [hcbl]
  · intro h
    constructor <;>
      simp [skip_op, on_times_up, complete_session, Except.toOption, h, hcbl] <;>
      split <;> simp [hcbl, h]

/-- Witness for C1: from the freshly constructed application (counter 0,
cycles field "4"), skipping the Work interval increments the counter to 1
and advances to ShortBreak since 1 mod 4 is not 0. -/
theorem work_completion_advance_witness :
    (skip_op 7 true (init_world 0).st none).toOption.map
      (fun x => (x.1.completed_work_sessions, x.1.mode)) =
      some ((init_world 0).st.completed_work_sessions + 1,
        if ((init_world 0).st.completed_work_sessions + 1) % (4 : Int).toNat = 0 then Mode.long
        else Mode.short) :=
  ((work_completion_advance 7 none (init_world 0).st none 4 (by decide)
    (by decide)).1 (by decide)).1

/-- Claim C9: selecting a different mode via the selector produces no
session record and no log write; it reloads the countdown from Settings
for the new mode and resets the mode-start timestamp, leaving the
running flag, the stop flag and the completed-work counter unchanged. -/
theorem mode_select_frame (w : World) (m : Mode) (t : Int) :
    (step (Event.selectMode m t) w).day = w.day ∧
    (step (Event.selectMode m t) w).recs = w.recs ∧
    (step (Event.selectMode m t) w).st.running = w.st.running ∧
    (step (Event.selectMode m t) w).st.stop_flag = w.st.stop_flag ∧
    (step (Event.selectMode m t) w).st.completed_work_sessions =
      w.st.completed_work_sessions ∧
    (step (Event.selectMode m t) w).st.mode = m ∧
    (step (Event.selectMode m t) w).st.remaining =
      current_default_minutes {w.st with mode := m} * 60 ∧
    (step (Event.selectMode m t) w).st.last_mode_start = some t :=
  ⟨rfl, rfl, rfl, rfl, rfl, rfl, by cases m <;> rfl, rfl⟩

/-- Claim C5: `skip()` from any state (paused or running, any remaining
seconds) succeeds, produces exactly one session record whose duration is
the elapsed wall-clock time since the mode start (not the countdown),
appends exactly that record's block to the day log, and advances the
mode. -/
theorem skip_completion_record (t s : Int) (st : AppState) (day : Option String)
    (h : st.last_mode_start = some s) :
    ∃ st' d' r, skip_op t true st day = Except.ok (st', d', r) ∧
      r = ⟨st.mode, s, t, t - s, pyStripS st.task_var, none⟩ ∧
      r.durationSeconds = t - s ∧
      d' = some (append_markdown (date_str t) day
        (build_block st.mode s t (t - s) (pyStripS st.task_var) none)) ∧
      st'.mode = (if st.mode = Mode.work then
          (if (st.completed_work_sessions + 1) % cbl_value st.cbl_var = 0 then Mode.long
           else Mode.short)
        else Mode.work) ∧
      st'.mode ≠ st.mode ∧
      (st.auto_var = false → st'.running = false) := by
  refine ⟨_, _, _, rfl, ?_, ?_, ?_, ?_, ?_, ?_⟩
  · simp [complete_session, h]
  · simp [complete_session, h]
  · simp [complete_session, h]
  · by_cases hm : st.mode = Mode.work <;>
      simp [complete_session, hm, apply_ite AppState.mode]
  · by_cases hm : st.mode = Mode.work
    · by_cases hz :
        (st.completed_work_sessions + 1) % cbl_value st.cbl_var = 0 <;>
        simp [complete_session, hm, hz, apply_ite AppState.mode]
    · simp [complete_session, hm, apply_ite AppState.mode]
      exact fun hh => hm hh.symm
  · intro ha
    simp [complete_session, ha, apply_ite AppState.running, apply_ite AppState.auto_var]

/-- Witness for C5: skipping the freshly constructed (paused, full
countdown) Work interval at instant 7 yields one record of duration 7
seconds and advances to a break. -/
theorem skip_completion_record_witness :
    ∃ st' d' r, skip_op 7 true (init_world 0).st none = Except.ok (st', d', r) ∧
      r = ⟨(init_world 0).st.mode, 0, 7, 7 - 0, pyStripS (init_world 0).st.task_var, none⟩ ∧
      r.durationSeconds = 7 - 0 ∧
      d' = some (append_markdown (date_str 7) none
        (build_block (init_world 0).st.mode 0 7 (7 - 0)
          (pyStripS (init_world 0).st.task_var) none)) ∧
      st'.mode = (if (init_world 0).st.mode = Mode.work then
          (if ((init_world 0).st.completed_work_sessions + 1) %
              cbl_value (init_world 0).st.cbl_var = 0 then Mode.long
           else Mode.short)
        else Mode.work) ∧
      st'.mode ≠ (init_world 0).st.mode ∧
      ((init_world 0).st.auto_var = false → st'.running = false) :=
  skip_completion_record 7 0 (init_world 0).st none (by decide)

/-- The title line prepended on first write is never the empty string,
whatever the date; hence a file that has received one append is non-empty. -/
theorem day_title_append_ne_empty (d b : String) : day_title d ++ b ≠ "" := by
  intro hcon
  have h2 := congrArg String.length hcon
  rw [String.length_append] at h2
  unfold day_title at h2
  rw [String.length_append, String.length_append] at h2
  have h3 : ("# Pomodoro Log — " : String).length = 17 := rfl
  have h4 : ("\n\n" : String).length = 2 := rfl
  have h5 : ("" : String).length = 0 := rfl
  rw [h3, h4, h5] at h2
  omega

/-- Claim C7: an append writes the single level-1 title line first iff the
day-log file does not exist or is empty; two sequential appends to a
previously empty day log give the title followed by the two blocks in call
order, and (on concrete record blocks) the result contains exactly one
level-1 title line. -/
theorem day_log_title_once :
    (∀ d text, append_markdown d none text = day_title d ++ text) ∧
    (∀ d text, append_markdown d (some "") text = day_title d ++ text) ∧
    (∀ d c text, c ≠ "" → append_markdown d (some c) text = c ++ text) ∧
    (∀ d b1 b2, append_markdown d (some (append_markdown d none b1)) b2 =
      day_title d ++ b1 ++ b2) ∧
    countH1 (append_markdown "0" (some (append_markdown "0" none
      (build_block Mode.work 0 7 7 "task" none)))
      (build_block Mode.short 10 20 10 "task" (some "walk"))) = 1 ∧
    countH1 (day_title "0") = 1 := by
  refine ⟨fun d text => rfl, fun d text => rfl, ?_, ?_, by decide, by decide⟩
  · intro d c text hc
    unfold append_markdown
    exact if_neg hc
  · intro d b1 b2
    have h0 : append_markdown d none b1 = day_title d ++ b1 := rfl
    have hred : append_markdown d (some (day_title d ++ b1)) b2 =
        (if (day_title d ++ b1) = "" then day_title d ++ b2
         else (day_title d ++ b1) ++ b2) := rfl
    rw [h0, hred, if_neg (day_title_append_ne_empty d b1)]

/-- Witness for C7: a concrete non-empty day log receives an append with
no title line added. -/
theorem day_log_title_once_witness :
    append_markdown "0" (some "x") "y" = "x" ++ "y" :=
  day_log_title_once.2.2.1 "0" "x" "y" (by decide)

/-! Invariant development for the bound on `remaining`. -/

theorem StInv_on_mode_change (t : Int) (st : AppState) : StInv (on_mode_change t st) := by
  have hm := one_le_current_default_minutes {st with mode := st.mode_var}
  refine ⟨?_, ?_, ?_⟩
  · show (0 : Int) ≤ current_default_minutes {st with mode := st.mode_var} * 60
    nlinarith
  · exact le_refl _
  · exact hm

theorem StInv_pause (st : AppState) (h : StInv st) : StInv (pause_ st) := by
  obtain ⟨h1, h2, h3⟩ := h
  exact ⟨by simpa using h1, by simpa using h2, by simpa using h3⟩

theorem StInv_start (t : Int) (st : AppState) (h : StInv st) : StInv (start_ t st) := by
  obtain ⟨h1, h2, h3⟩ := h
  exact ⟨by simpa using h1, by simpa using h2, by simpa using h3⟩

theorem StInv_goto (t : Int) (st : AppState) : StInv (goto_next_session t st) := by
  unfold goto_next_session
  exact StInv_on_mode_change t _

theorem StInv_ite_start (t : Int) (b : Bool) (st : AppState) (h : StInv st) :
    StInv (if b = true then start_ t st else st) := by
  cases b
  · simpa using h
  · simpa using StInv_start t st h

/-- The state reached by the `skipE` step, written out: `skip_op` with a
successful log write always advances through `goto_next_session`. -/
theorem step_skip_st (t : Int) (w : World) :
    (step (Event.skipE t) w).st =
      (let st1 := pause_ w.st
       let st2 := if st1.mode = Mode.work then
           {st1 with completed_work_sessions := st1.completed_work_sessions + 1}
         else st1
       let st3 := goto_next_session t st2
       if st3.auto_var = true then start_ t st3 else st3) := rfl

/-- The state reached by an enabled `timesUp` step, written out. -/
theorem step_timesup_st (t : Int) (memo : Option String) (w : World)
    (hcond : (w.st.running && !w.st.stop_flag && decide (w.st.remaining ≤ 0)) = true) :
    (step (Event.timesUp t memo) w).st =
      (let st1 := pause_ w.st
       let st2 := if st1.mode = Mode.work then
           {st1 with completed_work_sessions := st1.completed_work_sessions + 1}
         else st1
       let st3 := goto_next_session t st2
       if st3.auto_var = true then start_ t st3 else st3) := by
  unfold step
  dsimp only
  rw [if_pos hcond]
  rfl

theorem step_preserves_inv (e : Event) (w : World) (h : StInv w.st) :
    StInv (step e w).st := by
  cases e with
  | startE t => exact StInv_start t _ h
  | pauseE => exact StInv_pause _ h
  | tickE =>
    by_cases hg : timer_guard w.st = true
    · have hst : (step Event.tickE w).st = {w.st with remaining := w.st.remaining - 1} := by
        have hred : step Event.tickE w =
            (if timer_guard w.st = true then
              (⟨{w.st with remaining := w.st.remaining - 1}, w.day, w.recs⟩ : World)
            else w) := rfl
        rw [hred, if_pos hg]
      rw [hst]
      obtain ⟨h1, h2, h3⟩ := h
      have hpos : (0 : Int) < w.st.remaining := by
        unfold timer_guard at hg
        simp only [Bool.and_eq_true, decide_eq_true_eq] at hg
        exact hg.2
      exact ⟨by dsimp only; omega, by dsimp only; omega, h3⟩
    · have hst : (step Event.tickE w).st = w.st := by
        have hred : step Event.tickE w =
            (if timer_guard w.st = true then
              (⟨{w.st with remaining := w.st.remaining - 1}, w.day, w.recs⟩ : World)
            else w) := rfl
        rw [hred, if_neg hg]
      rw [hst]
      exact h
  | timesUp t memo =>
    by_cases hcond :
      (w.st.running && !w.st.stop_flag && decide (w.st.remaining ≤ 0)) = true
    · rw [step_timesup_st t memo w hcond]
      exact StInv_ite_start t _ _ (StInv_goto t _)
    · unfold step
      dsimp only
      rw [if_neg hcond]
      exact h
  | skipE t =>
    rw [step_skip_st t w]
    exact StInv_ite_start t _ _ (StInv_goto t _)
  | selectMode m t => exact StInv_on_mode_change t _
  | resetE t => exact StInv_on_mode_change t _
  | setWork s => exact h
  | setShort s => exact h
  | setLong s => exact h
  | setCbl s => exact h
  | setTask s => exact h
  | setAuto b => exact h

theorem StInv_init (t : Int) : StInv (init_world t).st := StInv_on_mode_change t _

/-- Counterexample to claim C6: editing the work-minutes field to "1"
while a full 25-minute Work countdown is loaded leaves `remaining` at
1500 seconds although `durationMinutes(activeMode) * 60`, read from the
live Settings, is now only 60 — the claimed upper bound fails. -/
theorem remaining_bound_counterexample :
    (run [Event.setWork "1"]).st.remaining = 1500 ∧
    current_default_minutes (run [Event.setWork "1"]).st * 60 = 60 ∧
    ¬((run [Event.setWork "1"]).st.remaining ≤
      current_default_minutes (run [Event.setWork "1"]).st * 60) := by
  decide

/-- Claim C6 as amended: in every reachable state of the sequential
semantics, `remaining` is non-negative and bounded by `m * 60` where `m`
is the minutes value loaded from Settings at the most recent mode
change/reset (and `m ≥ 1`); the bound relative to the live Settings
fields can be violated by editing a field mid-interval. -/
theorem remaining_bound_loaded (evs : List Event) : StInv (run evs).st := by
  have main : ∀ (l : List Event) (w : World), StInv w.st →
      StInv (l.foldl (fun w e => step e w) w).st := by
    intro l
    induction l with
    | nil => intro w h; exact h
    | cons e l ih => intro w h; exact ih _ (step_preserves_inv e w h)
  exact main evs _ (StInv_init 0)

end Pomodoro
